import Mathlib

/-!
Shallow embedding of the Smart-inventory-optimization simulation engines.

The repository contains two day-by-day inventory simulators:

* the `what_if_simulator` package (`what_if_simulator/core.py`,
  `what_if_simulator/order_manager.py`, `what_if_simulator/utils.py`),
  embedded below in namespace `WhatIf`;
* the dashboard simulator (`sim.py`, class `InventorySimulator` with
  `simulate_product`), embedded below in namespace `Dashboard`.

Conventions of the embedding:

* Dates are integers (a count of days). For the business-day arithmetic of
  `pandas.tseries.offsets.BusinessDay`, day `0` is a Monday, so a day `d`
  is a weekend day exactly when `d.emod 7` is `5` or `6`.
* Python floats are embedded as rationals; `random.random()` draws are an
  explicit stream `ℕ → ℚ` together with a cursor, mirroring the global
  (ambient) random state of the `random` module.
* Exceptions are `Except` values; `OrderFailedError` inside
  `OrderManager.place_order` is an `Option` result, since the caller
  absorbs it.
-/

namespace WhatIf

/-- Error cases raised by the `what_if_simulator` engine (all are
`ValueError` in Python; the payload is the offending date or range). -/
inductive SimError where
  | invalidForecast
  | dateRangeOut (startDate endDate minD maxD : ℤ)
  | noInventoryData (d : ℤ)
  | noForecast (d : ℤ)
deriving Repr, DecidableEq

/-- Weekend rolling used by `pandas` `BusinessDay`: a Saturday moves
forward to the following Monday, a Sunday likewise. -/
def rollToMonday (d : ℤ) : ℤ :=
  if d.emod 7 = 5 then d + 2 else if d.emod 7 = 6 then d + 1 else d

/-- Step one business day forward from `d` (next calendar day, rolled past
the weekend), as `pandas` `BusinessDay(1)` does. -/
def nextBusinessDay (d : ℤ) : ℤ := rollToMonday (d + 1)

/-- Add `n` business days to `d`: the semantics of
`d + pandas.tseries.offsets.BusinessDay(n)` for `n ≥ 1`. -/
def businessDayAdd : ℤ → ℕ → ℤ
  | d, 0 => d
  | d, n + 1 => businessDayAdd (nextBusinessDay d) n

/-- One entry of `OrderManager.pending_orders`
(`order_manager.py`, `place_order`). -/
structure PendingOrder where
  arrival_date : ℤ
  quantity : ℤ
  status : String
deriving Repr, DecidableEq

/-- State of `OrderManager` (`order_manager.py`). -/
structure OrderManager where
  lead_time : ℕ
  moq : ℤ
  reliability : ℚ
  pending_orders : List PendingOrder
deriving Repr, DecidableEq

/-- `OrderManager._calculate_arrival`: applies the lead time as a
business-day offset (`order_date + BusinessDay(self.lead_time)`). -/
def OrderManager.calculate_arrival (om : OrderManager) (order_date : ℤ) : ℤ :=
  businessDayAdd order_date om.lead_time

/-- `OrderManager.place_order(order_date, needed_qty)`. The Python method
draws `random.random()` once; the draw consumed is passed in explicitly.
`none` is the `OrderFailedError` outcome (`random.random() > reliability`);
on success the order dict is appended to `pending_orders`. -/
def OrderManager.place_order (om : OrderManager) (draw : ℚ) (order_date : ℤ)
    (needed_qty : ℤ) : Option OrderManager :=
  if om.reliability < draw then
    none
  else
    some { om with pending_orders := om.pending_orders ++
      [{ arrival_date := om.calculate_arrival order_date,
         quantity := max needed_qty om.moq,
         status := "pending" }] }

/-- `OrderManager.get_pending_orders`. -/
def OrderManager.get_pending_orders (om : OrderManager) : List PendingOrder :=
  om.pending_orders

/-- State of `CostCalculator` (`core.py`, lines 9-30). -/
structure CostCalculator where
  holding_rate : ℚ
  order_cost : ℚ
  stockout_penalty : ℚ
  total_holding : ℚ
  total_ordering : ℚ
  total_stockout : ℚ
deriving Repr, DecidableEq

/-- `CostCalculator.__init__(holding_rate, order_cost, stockout_penalty)`.
The constructor body assigns `self.holding_rate = 0.20  # default`, so the
`holding_rate` argument is discarded. -/
def CostCalculator.init (holding_rate order_cost stockout_penalty : ℚ) :
    CostCalculator :=
  { holding_rate := 1 / 5
    order_cost := order_cost
    stockout_penalty := stockout_penalty
    total_holding := 0
    total_ordering := 0
    total_stockout := 0 }

/-- `CostCalculator.update_costs(closing_stock, stockout_qty)`. -/
def CostCalculator.update_costs (c : CostCalculator)
    (closing_stock stockout_qty : ℤ) : CostCalculator :=
  { c with
    total_holding := c.total_holding + closing_stock * c.holding_rate
    total_stockout := c.total_stockout + stockout_qty * c.stockout_penalty }

/-- `CostCalculator.add_order_cost()`. -/
def CostCalculator.add_order_cost (c : CostCalculator) : CostCalculator :=
  { c with total_ordering := c.total_ordering + c.order_cost }

/-- `CostCalculator.set_holding_rate(rate)`. -/
def CostCalculator.set_holding_rate (c : CostCalculator) (rate : ℚ) :
    CostCalculator :=
  { c with holding_rate := rate }

/-- Row of `inventory_policy.csv` as used by the engine. -/
structure Policy where
  eoq : ℤ
  reorder_point : ℤ
  safety_stock : ℤ
  unit_cost : ℚ
deriving Repr, DecidableEq

/-- Row of `suppliers1.csv` as used by the engine. -/
structure Supplier where
  lead_time : ℕ
  MOQ : ℤ
  reliability : ℚ
  cost : ℚ
deriving Repr, DecidableEq

/-- The fields of `InventorySimulator` (`core.py`, `__init__`) that the run
loop reads. The forecast and ledger dataframes are lists of
(date, value) rows in file order. -/
structure InventorySimulator where
  rop : ℤ
  eoq : ℤ
  unit_cost : ℚ
  order_mgr : OrderManager
  cost_calc : CostCalculator
  forecast : List (ℤ × ℤ)
  ledger : List (ℤ × ℤ)
deriving Repr, DecidableEq

/-- `InventorySimulator.__init__(product_id, holding_rate, ...)` after the
data loader has produced the policy/supplier rows:
`estimated_order_cost = 0.1 * MOQ * cost`, `rop = reorder_point +
safety_stock`, `annual_rate = holding_rate or 0.25`, and the cost
calculator is built with `holding_cost_per_unit / 365`, the estimated
order cost, and `stockout_penalty = 5.0`. -/
def InventorySimulator.init (p : Policy) (s : Supplier)
    (holding_rate : Option ℚ) (forecast ledger : List (ℤ × ℤ)) :
    InventorySimulator :=
  let estimated_order_cost : ℚ := 1 / 10 * s.MOQ * s.cost
  let annual_rate : ℚ := holding_rate.getD (1 / 4)
  let holding_cost_per_unit : ℚ := p.unit_cost * annual_rate
  { rop := p.reorder_point + p.safety_stock
    eoq := p.eoq
    unit_cost := p.unit_cost
    order_mgr :=
      { lead_time := s.lead_time
        moq := s.MOQ
        reliability := s.reliability
        pending_orders := [] }
    cost_calc :=
      CostCalculator.init (holding_cost_per_unit / 365) estimated_order_cost 5
    forecast := forecast
    ledger := ledger }

/-- Mutable state threaded through one run of `InventorySimulator.run`. -/
structure SimState where
  current_stock : ℤ
  order_mgr : OrderManager
  cost_calc : CostCalculator
deriving Repr, DecidableEq

/-- `InventorySimulator._process_order_arrivals(current_date)`: every
pending order whose `arrival_date` equals the current date has its
quantity added to stock. The loop mutates only `current_stock`; the
`pending_orders` list is left as it was. -/
def process_order_arrivals (s : SimState) (current_date : ℤ) : SimState :=
  { s with current_stock := s.current_stock +
      ((s.order_mgr.get_pending_orders.filter
          (fun o => o.arrival_date = current_date)).map
        (fun o => o.quantity)).sum }

/-- First forecast row for a date (`day_match['predicted_units'].iloc[0]`). -/
def forecastLookup (forecast : List (ℤ × ℤ)) (d : ℤ) : Option ℤ :=
  (forecast.find? (fun row => row.1 = d)).map (fun row => row.2)

/-- `InventorySimulator._get_daily_demand(date, modifications)`: a
modification for the date wins; otherwise the forecast row is used;
otherwise `ValueError("No forecast available for date: ...")`. -/
def get_daily_demand (forecast : List (ℤ × ℤ)) (mods : ℤ → Option ℤ)
    (d : ℤ) : Except SimError ℤ :=
  match mods d with
  | some q => .ok q
  | none =>
    match forecastLookup forecast d with
    | some q => .ok q
    | none => .error (.noForecast d)

/-- `InventorySimulator._update_inventory(demand)`: stock is decremented
by the demand, the shortfall is returned as the stockout quantity, and the
stock is clamped at zero. Returns (new stock, stockout). -/
def update_inventory (stock demand : ℤ) : ℤ × ℤ :=
  let s := stock - demand
  (max s 0, max (-s) 0)

/-- `InventorySimulator._check_reorder_point(date)`: when stock is at or
below `rop` and no order is pending, one reliability draw is consumed; on
success the order is stored and the order cost added, on
`OrderFailedError` nothing changes. Returns the new state and the new
position in the draw stream. -/
def check_reorder_point (rop eoq : ℤ) (draws : ℕ → ℚ) (s : SimState)
    (k : ℕ) (d : ℤ) : SimState × ℕ :=
  if s.current_stock ≤ rop ∧ s.order_mgr.get_pending_orders = [] then
    match s.order_mgr.place_order (draws k) d eoq with
    | some om =>
      ({ s with
          order_mgr := om
          cost_calc := s.cost_calc.add_order_cost }, k + 1)
    | none => (s, k + 1)
  else
    (s, k)

/-- One row of `InventorySimulator._record_daily_result`. The Python dict
stores `len(self.order_mgr.get_pending_orders())` under the key
`pending_orders`. -/
structure DailyResult where
  date : ℤ
  demand : ℤ
  stockout : ℤ
  inventory : ℤ
  pending_orders : ℕ
deriving Repr, DecidableEq

/-- One iteration of the day loop in `InventorySimulator.run`
(`core.py`, lines 79-86): arrivals, demand, consumption, reorder check,
cost accrual, daily record. -/
def simulate_day (rop eoq : ℤ) (forecast : List (ℤ × ℤ))
    (mods : ℤ → Option ℤ) (draws : ℕ → ℚ) (s : SimState) (k : ℕ)
    (d : ℤ) : Except SimError (SimState × ℕ × DailyResult) :=
  let s1 := process_order_arrivals s d
  match get_daily_demand forecast mods d with
  | .error e => .error e
  | .ok demand =>
    let res := update_inventory s1.current_stock demand
    let s2 := { s1 with current_stock := res.1 }
    let step := check_reorder_point rop eoq draws s2 k d
    let s3 := step.1
    let s4 := { s3 with
      cost_calc := s3.cost_calc.update_costs s3.current_stock res.2 }
    .ok (s4, step.2,
      { date := d
        demand := demand
        stockout := res.2
        inventory := s4.current_stock
        pending_orders := s4.order_mgr.get_pending_orders.length })

/-- The day loop of `InventorySimulator.run`, folded over the timeline.
A demand failure aborts the whole run with the error. -/
def run_days (rop eoq : ℤ) (forecast : List (ℤ × ℤ))
    (mods : ℤ → Option ℤ) (draws : ℕ → ℚ) :
    List ℤ → SimState → ℕ → List DailyResult →
    Except SimError (SimState × ℕ × List DailyResult)
  | [], s, k, acc => .ok (s, k, acc)
  | d :: ds, s, k, acc =>
    match simulate_day rop eoq forecast mods draws s k d with
    | .error e => .error e
    | .ok (s2, k2, r) => run_days rop eoq forecast mods draws ds s2 k2 (acc ++ [r])

/-- `pd.date_range(start_date, end_date)`: consecutive days from
`start_date` to `end_date` inclusive (empty when `start_date > end_date`). -/
def timeline (start_date end_date : ℤ) : List ℤ :=
  (List.range (end_date - start_date + 1).toNat).map
    (fun i : ℕ => start_date + (i : ℤ))

/-- `validate_date_range(forecast_df, start_date, end_date)` from
`what_if_simulator/utils.py` (the second, effective definition): an empty
forecast is invalid, and the range must lie inside the min/max forecast
dates. -/
def validate_date_range (forecast : List (ℤ × ℤ)) (start_date end_date : ℤ) :
    Except SimError Unit :=
  match forecast with
  | [] => .error .invalidForecast
  | f :: fs =>
    let minD := (fs.map (fun row => row.1)).foldl min f.1
    let maxD := (fs.map (fun row => row.1)).foldl max f.1
    if start_date < minD ∨ maxD < end_date then
      .error (.dateRangeOut start_date end_date minD maxD)
    else
      .ok ()

/-- `InventorySimulator._init_stock_state(start_date)`: the opening stock
of the first ledger row for `start_date`, or
`ValueError("No inventory data for start date: ...")`. -/
def init_stock_state (ledger : List (ℤ × ℤ)) (start_date : ℤ) :
    Except SimError ℤ :=
  match (ledger.find? (fun row => row.1 = start_date)).map (fun row => row.2) with
  | some q => .ok q
  | none => .error (.noInventoryData start_date)

/-- `InventorySimulator.run(start_date, end_date, demand_modifications,
enable_risk, holding_rate, force_supplier_id)`. The `enable_risk`
argument is never read by the Python body and `force_supplier_id = None`
is assumed (the override only swaps the supplier row before the loop).
When `holding_rate` is given, the run sets
`cost_calc.holding_rate = unit_cost * holding_rate / 365` first. The
randomness of the reliability trials is the explicit stream `draws`
starting at cursor `k` (the cursor models the position of the ambient
global `random` state). -/
def InventorySimulator.run (sim : InventorySimulator)
    (start_date end_date : ℤ) (mods : ℤ → Option ℤ)
    (holding_rate : Option ℚ) (draws : ℕ → ℚ) (k : ℕ) :
    Except SimError (SimState × ℕ × List DailyResult) :=
  let cc := match holding_rate with
    | some r => { sim.cost_calc with holding_rate := sim.unit_cost * r / 365 }
    | none => sim.cost_calc
  match validate_date_range sim.forecast start_date end_date with
  | .error e => .error e
  | .ok _ =>
    match init_stock_state sim.ledger start_date with
    | .error e => .error e
    | .ok stock0 =>
      run_days sim.rop sim.eoq sim.forecast mods draws
        (timeline start_date end_date)
        { current_stock := stock0, order_mgr := sim.order_mgr, cost_calc := cc }
        k []

end WhatIf

namespace Dashboard

/-- Rounding of a Python `int(...)` cast: truncation toward zero. -/
def pythonInt (x : ℚ) : ℤ :=
  if 0 ≤ x then Int.floor x else Int.ceil x

/-- Supplier row as read by `sim.py` (`reliability` is on the 0-100
percent scale there, compare the `f"{...['reliability']}%"` display). -/
structure Supplier where
  supplier_id : String
  products : String
  lead_time : ℤ
  MOQ : ℤ
  reliability : ℚ
  cost : ℚ
deriving Repr, DecidableEq

/-- Policy row as read by `sim.py`. -/
structure Policy where
  product_id : String
  supplier_id : String
  eoq : ℤ
  reorder_point : ℤ
  safety_stock : ℤ
  unit_cost : ℚ
deriving Repr, DecidableEq

/-- `InventorySimulator._adjusted_lead_time(supplier)` in `sim.py`:
`int(lead_time * (1 + (100 - reliability) / 100))`. -/
def adjusted_lead_time (s : Supplier) : ℤ :=
  pythonInt (s.lead_time * (1 + (100 - s.reliability) / 100))

/-- Scenario overrides accepted by `simulate_product`
(`scenario_params.get(...)` with the base value as default). -/
structure ScenarioParams where
  supplier_id : Option String
  eoq : Option ℤ
  reorder_point : Option ℤ
  safety_stock : Option ℤ
  buffer_days : Option ℤ
deriving Repr, DecidableEq

/-- Loop state of `simulate_product`: `current_stock` and the
`pending_orders` list of (arrival date, quantity) pairs. -/
structure DashState where
  current_stock : ℤ
  pending_orders : List (ℤ × ℤ)
deriving Repr, DecidableEq

/-- One row appended to the `ledger` list in `simulate_product`. -/
structure LedgerRow where
  date : ℤ
  opening_stock : ℤ
  demand : ℤ
  sold : ℤ
  unmet_demand : ℤ
  closing_stock : ℤ
  restock_qty : ℤ
  holding_cost : ℚ
  ordering_cost : ℚ
  supplier : String
deriving Repr, DecidableEq

/-- `sum(qty for d, qty in pending_orders if d == date)`. -/
def arrivedQty (pending : List (ℤ × ℤ)) (date : ℤ) : ℤ :=
  ((pending.filter (fun p => p.1 = date)).map (fun p => p.2)).sum

/-- `[(d, qty) for d, qty in pending_orders if d > date]`. -/
def keepPending (pending : List (ℤ × ℤ)) (date : ℤ) : List (ℤ × ℤ) :=
  pending.filter (fun p => date < p.1)

/-- `self.HOLDING_RATE_DAILY = 0.20 / 365`. -/
def HOLDING_RATE_DAILY : ℚ := 1 / 5 / 365

/-- `self.ORDER_COST = 500`. -/
def ORDER_COST : ℚ := 500

/-- One iteration of the `for date in pd.date_range(...)` loop of
`simulate_product` (`sim.py`, lines 52-94): arrivals are added and dropped
from the pending list, a missing forecast date silently yields demand `0`
(the `except IndexError: demand = 0` path), consumption, the reorder
trigger `closing_stock < reorder_point and not pending_orders`, cost
fields, the ledger row, and `current_stock = closing_stock`. -/
def sim_day (policy : Policy) (supplier : Supplier)
    (forecast : ℤ → Option ℤ) (st : DashState) (date : ℤ) :
    DashState × LedgerRow :=
  let stock1 := st.current_stock + arrivedQty st.pending_orders date
  let pend1 := keepPending st.pending_orders date
  let demand := (forecast date).getD 0
  let sold := min stock1 demand
  let unmet := max 0 (demand - sold)
  let closing := stock1 - sold
  let step :=
    if closing < policy.reorder_point ∧ pend1 = [] then
      let order_qty := max policy.eoq supplier.MOQ
      (pend1 ++ [(date + adjusted_lead_time supplier, order_qty)], order_qty)
    else
      (pend1, 0)
  let holding_cost := closing * policy.unit_cost * HOLDING_RATE_DAILY
  let ordering_cost : ℚ := if 0 < step.2 then ORDER_COST else 0
  ({ current_stock := closing, pending_orders := step.1 },
   { date := date
     opening_stock := stock1
     demand := demand
     sold := sold
     unmet_demand := unmet
     closing_stock := closing
     restock_qty := step.2
     holding_cost := holding_cost
     ordering_cost := ordering_cost
     supplier := supplier.supplier_id })

/-- The ledger produced by folding `sim_day` over a list of days. -/
def sim_days (policy : Policy) (supplier : Supplier)
    (forecast : ℤ → Option ℤ) :
    List ℤ → DashState → List LedgerRow × DashState
  | [], st => ([], st)
  | d :: ds, st =>
    let step := sim_day policy supplier forecast st d
    let rest := sim_days policy supplier forecast ds step.1
    (step.2 :: rest.1, rest.2)

/-- Day number of 2025-04-01 (`pd.to_datetime("2025-04-01")`), counted
from a Monday origin (2025-04-01 is a Tuesday, and 20175 ≡ 1 mod 7). -/
def start_date_2025_04_01 : ℤ := 20175

/-- Consecutive days from `a` to `b` inclusive, as `pd.date_range`. -/
def dateRange (a b : ℤ) : List ℤ :=
  (List.range (b - a + 1).toNat).map (fun i : ℕ => a + (i : ℤ))

/-- The body of `InventorySimulator.simulate_product` up to (and not
including) the `except Exception` handler. Data access:
`policies.query(product_id == ...).iloc[0]` is the first matching policy
row (an `IndexError` — modelled as `Except.error` — when there is none),
`suppliers.query(products == ...)` filters the supplier table, and the
scenario parameters override supplier choice, eoq, reorder point and
safety stock. `initial_stock` stands for the value of
`_calculate_initial_stock`, whose floating-point statistics (std-dev,
square root, normal quantile) are outside the rational embedding; every
theorem below holds for all values of it. -/
def simulate_core (policies : List Policy) (suppliers : List Supplier)
    (forecast : ℤ → Option ℤ) (product_id : String)
    (scenario_params : Option ScenarioParams) (initial_stock : ℤ) :
    Except String (List LedgerRow) :=
  match policies.find? (fun p => p.product_id = product_id) with
  | none => .error "IndexError: no policy row"
  | some base_policy =>
    let product_suppliers := suppliers.filter (fun s => s.products = product_id)
    let wanted_supplier_id :=
      match scenario_params with
      | some sp => sp.supplier_id.getD base_policy.supplier_id
      | none => base_policy.supplier_id
    match product_suppliers.find? (fun s => s.supplier_id = wanted_supplier_id) with
    | none => .error "IndexError: no supplier row"
    | some supplier =>
      let policy :=
        match scenario_params with
        | some sp =>
          { base_policy with
              eoq := sp.eoq.getD base_policy.eoq
              reorder_point := sp.reorder_point.getD base_policy.reorder_point
              safety_stock := sp.safety_stock.getD base_policy.safety_stock }
        | none => base_policy
      let start_date := start_date_2025_04_01
      let end_date := start_date + 30 + adjusted_lead_time supplier
      let days := dateRange start_date end_date
      .ok (sim_days policy supplier forecast days
            { current_stock := initial_stock, pending_orders := [] }).1

/-- `InventorySimulator.simulate_product`: the whole body is wrapped in
`try/except Exception`, and the handler shows the message with
`st.error(...)` and returns an empty dataframe — here the empty list. -/
def simulate_product (policies : List Policy) (suppliers : List Supplier)
    (forecast : ℤ → Option ℤ) (product_id : String)
    (scenario_params : Option ScenarioParams) (initial_stock : ℤ) :
    List LedgerRow :=
  match simulate_core policies suppliers forecast product_id scenario_params
      initial_stock with
  | .ok rows => rows
  | .error _ => []

end Dashboard

/-!
Analysis definitions:
spec-side definitions (written from the specification's words, for
comparison with the embedded code), Boolean checkers over run results,
and concrete fixtures used by the closed theorems below.
-/

/-- Spec-side formula, following the specification's words: on a
successful order, `adjusted_lead_time = floor(lead_time_days * (1 + (1 −
reliability)))` with `reliability` normalized to `[0,1]`, and the arrival
is that many calendar days after the order date. -/
def specAdjustedLeadTime (lead_time_days : ℕ) (reliability : ℚ) : ℤ :=
  Int.floor ((lead_time_days : ℚ) * (1 + (1 - reliability)))

/-- Spec-side formula, following the specification's words: a reorder is
attempted exactly when `stock ≤ reorder_point + safety_stock` and no
order is pending. -/
def specReorderTrigger (stock reorder_point safety_stock : ℤ)
    (noPending : Bool) : Bool :=
  decide (stock ≤ reorder_point + safety_stock) && noPending

/-- An abstract stock operation of the core engine: an arrival credit
(`current_stock += quantity`) or one `_update_inventory` consumption. -/
inductive StockOp where
  | receive (qty : ℤ)
  | consume (demand : ℤ)
deriving Repr, DecidableEq

/-- Apply one stock operation. -/
def applyOp (s : ℤ) : StockOp → ℤ
  | .receive q => s + q
  | .consume d => (WhatIf.update_inventory s d).1

/-- Apply a sequence of stock operations. -/
def applyOps (s : ℤ) (ops : List StockOp) : ℤ :=
  ops.foldl applyOp s

/-- Checker: every daily record of a core-engine run reports at most one
pending order. -/
def corePendingAtMostOne :
    Except WhatIf.SimError (WhatIf.SimState × ℕ × List WhatIf.DailyResult) →
    Bool
  | .ok (_, _, recs) => recs.all (fun r => decide (r.pending_orders ≤ 1))
  | .error _ => true

/-- Fixture: a policy row with reorder point 10 and no safety stock. -/
def fixPolicy : WhatIf.Policy :=
  { eoq := 50, reorder_point := 10, safety_stock := 0, unit_cost := 1 }

/-- Fixture: a perfectly reliable supplier with a one-day lead time. -/
def fixSupplierSure : WhatIf.Supplier :=
  { lead_time := 1, MOQ := 50, reliability := 1, cost := 1 }

/-- Fixture: a supplier with reliability one half and a one-day lead
time. -/
def fixSupplierHalf : WhatIf.Supplier :=
  { lead_time := 1, MOQ := 50, reliability := mkRat 1 2, cost := 1 }

/-- Fixture: a three-day core simulator (days 0, 1, 2 are Monday,
Tuesday, Wednesday under the embedding's weekday convention) whose
reorder trial always succeeds. -/
def fixSim3 : WhatIf.InventorySimulator :=
  WhatIf.InventorySimulator.init fixPolicy fixSupplierSure none
    [(0, 5), (1, 5), (2, 5)] [(0, 12)]

/-- Fixture: a one-day core simulator with the half-reliable supplier. -/
def fixSim1 : WhatIf.InventorySimulator :=
  WhatIf.InventorySimulator.init fixPolicy fixSupplierHalf none
    [(0, 5)] [(0, 10)]

/-- Fixture: a stream of ambient random draws whose first value fails the
reliability-one-half trial and whose later values pass it. -/
def fixDraws : ℕ → ℚ :=
  fun n => if n = 0 then mkRat 9 10 else mkRat 1 10

/-- Fixture: a dashboard policy row. -/
def fixDashPolicy : Dashboard.Policy :=
  { product_id := "P1", supplier_id := "S1", eoq := 5, reorder_point := 10,
    safety_stock := 5, unit_cost := 1 }

/-- Fixture: a dashboard supplier row (reliability on the percent
scale). -/
def fixDashSupplier : Dashboard.Supplier :=
  { supplier_id := "S1", products := "P1", lead_time := 2, MOQ := 3,
    reliability := 50, cost := 1 }

/-- Fixture: a dashboard supplier row whose MOQ exceeds the policy
EOQ. -/
def fixDashSupplierBigMOQ : Dashboard.Supplier :=
  { supplier_id := "S1", products := "P1", lead_time := 2, MOQ := 8,
    reliability := 50, cost := 1 }

/-- Fixture: an order manager with a one-day lead time, MOQ 3 and
reliability one half, with nothing pending. -/
def fixOrderManager : WhatIf.OrderManager :=
  { lead_time := 1, moq := 3, reliability := mkRat 1 2, pending_orders := [] }

/-- Fixture: a mid-run engine state holding 5 units with nothing
pending. -/
def fixState : WhatIf.SimState :=
  { current_stock := 5, order_mgr := fixOrderManager,
    cost_calc := WhatIf.CostCalculator.init 0 0 0 }

/-!
Helper lemmas.
-/

theorem applyOps_nonneg (ops : List StockOp) :
    ∀ s : ℤ, 0 ≤ s → (∀ q, StockOp.receive q ∈ ops → 0 ≤ q) →
      0 ≤ applyOps s ops := by
  induction ops with
  | nil => intro s hs _; simpa [applyOps] using hs
  | cons op ops ih =>
    intro s hs hr
    have hstep : 0 ≤ applyOp s op := by
      cases op with
      | receive q =>
        have hq : 0 ≤ q := hr q (List.mem_cons_self _ _)
        simp only [applyOp]
        omega
      | consume d =>
        simp only [applyOp, WhatIf.update_inventory]
        exact le_max_right _ _
    have := ih (applyOp s op) hstep (fun q hq => hr q (List.mem_cons_of_mem _ hq))
    simpa [applyOps, List.foldl_cons] using this

theorem sim_day_pending_le_one (policy : Dashboard.Policy)
    (supplier : Dashboard.Supplier) (forecast : ℤ → Option ℤ)
    (st : Dashboard.DashState) (d : ℤ)
    (h : st.pending_orders.length ≤ 1) :
    ((Dashboard.sim_day policy supplier forecast st d).1).pending_orders.length ≤ 1 := by
  have hfilter : (Dashboard.keepPending st.pending_orders d).length ≤ 1 :=
    le_trans (List.length_filter_le _ _) h
  simp only [Dashboard.sim_day]
  split
  next hcond => simp [hcond.2]
  next _ => exact hfilter

theorem sim_days_pending_le_one (policy : Dashboard.Policy)
    (supplier : Dashboard.Supplier) (forecast : ℤ → Option ℤ)
    (days : List ℤ) :
    ∀ st : Dashboard.DashState, st.pending_orders.length ≤ 1 →
      ((Dashboard.sim_days policy supplier forecast days st).2).pending_orders.length ≤ 1 := by
  induction days with
  | nil => intro st h; simpa [Dashboard.sim_days] using h
  | cons d ds ih =>
    intro st h
    simp only [Dashboard.sim_days]
    exact ih _ (sim_day_pending_le_one policy supplier forecast st d h)

theorem timeline_length (a b : ℤ) :
    (WhatIf.timeline a b).length = (b - a + 1).toNat := by
  simp only [WhatIf.timeline, List.length_map, List.length_range]

theorem run_days_length (rop eoq : ℤ) (fc : List (ℤ × ℤ))
    (mods : ℤ → Option ℤ) (draws : ℕ → ℚ) (days : List ℤ) :
    ∀ (s : WhatIf.SimState) (k : ℕ) (acc : List WhatIf.DailyResult),
      (∃ e, WhatIf.run_days rop eoq fc mods draws days s k acc = .error e)
      ∨ ∃ s2 k2 recs,
          WhatIf.run_days rop eoq fc mods draws days s k acc = .ok (s2, k2, recs)
          ∧ recs.length = acc.length + days.length := by
  induction days with
  | nil =>
    intro s k acc
    exact Or.inr ⟨s, k, acc, rfl, by simp⟩
  | cons d ds ih =>
    intro s k acc
    simp only [WhatIf.run_days]
    cases hday : WhatIf.simulate_day rop eoq fc mods draws s k d with
    | error e => exact Or.inl ⟨e, rfl⟩
    | ok v =>
      obtain ⟨s2, k2, r⟩ := v
      rcases ih s2 k2 (acc ++ [r]) with ⟨e, he⟩ | ⟨s3, k3, recs, hrec, hlen⟩
      · exact Or.inl ⟨e, he⟩
      · refine Or.inr ⟨s3, k3, recs, hrec, ?_⟩
        simp only [List.length_append, List.length_cons, List.length_nil]
          at hlen ⊢
        omega

theorem check_reorder_point_cases (rop eoq : ℤ) (draws : ℕ → ℚ)
    (s : WhatIf.SimState) (k : ℕ) (d : ℤ) :
    ((WhatIf.check_reorder_point rop eoq draws s k d).1.current_stock
        = s.current_stock)
    ∧ ((WhatIf.check_reorder_point rop eoq draws s k d).1.cost_calc.order_cost
        = s.cost_calc.order_cost)
    ∧ (((WhatIf.check_reorder_point rop eoq draws s k d).1.order_mgr.pending_orders
          = s.order_mgr.pending_orders
        ∧ (WhatIf.check_reorder_point rop eoq draws s k d).1.cost_calc.total_ordering
          = s.cost_calc.total_ordering)
      ∨ (s.order_mgr.pending_orders = []
        ∧ (WhatIf.check_reorder_point rop eoq draws s k d).1.order_mgr.pending_orders.length
            = 1
        ∧ (WhatIf.check_reorder_point rop eoq draws s k d).1.cost_calc.total_ordering
            = s.cost_calc.total_ordering + s.cost_calc.order_cost)) := by
  unfold WhatIf.check_reorder_point
  by_cases hcond : s.current_stock ≤ rop ∧ s.order_mgr.get_pending_orders = []
  · rw [if_pos hcond]
    unfold WhatIf.OrderManager.place_order
    by_cases hdraw : s.order_mgr.reliability < draws k
    · rw [if_pos hdraw]
      exact ⟨rfl, rfl, Or.inl ⟨rfl, rfl⟩⟩
    · rw [if_neg hdraw]
      have hnil : s.order_mgr.pending_orders = [] := hcond.2
      refine ⟨rfl, rfl, Or.inr ⟨hnil, ?_, rfl⟩⟩
      show (s.order_mgr.pending_orders ++ [_]).length = 1
      rw [hnil]
      rfl
  · rw [if_neg hcond]
    exact ⟨rfl, rfl, Or.inl ⟨rfl, rfl⟩⟩

theorem simulate_day_cases (rop eoq : ℤ) (fc : List (ℤ × ℤ))
    (mods : ℤ → Option ℤ) (draws : ℕ → ℚ) (s : WhatIf.SimState) (k : ℕ)
    (d : ℤ) :
    (∃ e, WhatIf.simulate_day rop eoq fc mods draws s k d = .error e)
    ∨ ∃ s2 k2 r, WhatIf.simulate_day rop eoq fc mods draws s k d = .ok (s2, k2, r)
      ∧ r.pending_orders = s2.order_mgr.pending_orders.length
      ∧ s2.cost_calc.order_cost = s.cost_calc.order_cost
      ∧ ((s2.order_mgr.pending_orders = s.order_mgr.pending_orders
          ∧ s2.cost_calc.total_ordering = s.cost_calc.total_ordering)
        ∨ (s.order_mgr.pending_orders = []
          ∧ s2.order_mgr.pending_orders.length = 1
          ∧ s2.cost_calc.total_ordering
              = s.cost_calc.total_ordering + s.cost_calc.order_cost)) := by
  cases hdem : WhatIf.get_daily_demand fc mods d with
  | error e =>
    refine Or.inl ⟨e, ?_⟩
    simp only [WhatIf.simulate_day, hdem]
  | ok dem =>
    simp only [WhatIf.simulate_day, hdem]
    refine Or.inr ⟨_, _, _, rfl, rfl, ?_, ?_⟩
    · exact (check_reorder_point_cases rop eoq draws _ k d).2.1
    · exact (check_reorder_point_cases rop eoq draws _ k d).2.2

theorem run_days_master (rop eoq : ℤ) (fc : List (ℤ × ℤ))
    (mods : ℤ → Option ℤ) (draws : ℕ → ℚ) (days : List ℤ) :
    ∀ (s : WhatIf.SimState) (k : ℕ) (acc : List WhatIf.DailyResult),
      s.order_mgr.pending_orders.length ≤ 1 →
      s.cost_calc.total_ordering
        = s.cost_calc.order_cost * (s.order_mgr.pending_orders.length : ℚ) →
      List.Chain' (· ≤ ·) (acc.map (fun r => r.pending_orders)) →
      (∀ r ∈ acc, r.pending_orders ≤ s.order_mgr.pending_orders.length) →
      (∀ r ∈ acc, r.pending_orders ≤ 1) →
      (∃ e, WhatIf.run_days rop eoq fc mods draws days s k acc = .error e)
      ∨ ∃ s2 k2 recs,
          WhatIf.run_days rop eoq fc mods draws days s k acc = .ok (s2, k2, recs)
          ∧ s2.order_mgr.pending_orders.length ≤ 1
          ∧ s2.cost_calc.order_cost = s.cost_calc.order_cost
          ∧ s2.cost_calc.total_ordering
              = s2.cost_calc.order_cost * (s2.order_mgr.pending_orders.length : ℚ)
          ∧ List.Chain' (· ≤ ·) (recs.map (fun r => r.pending_orders))
          ∧ (∀ r ∈ recs, r.pending_orders ≤ 1) := by
  induction days with
  | nil =>
    intro s k acc hlen htot hchain _ hone
    exact Or.inr ⟨s, k, acc, rfl, hlen, rfl, htot, hchain, hone⟩
  | cons d ds ih =>
    intro s k acc hlen htot hchain hmono hone
    rcases simulate_day_cases rop eoq fc mods draws s k d with
      ⟨e, he⟩ | ⟨s2, k2, r, hday, hrec, hoc, hdich⟩
    · refine Or.inl ⟨e, ?_⟩
      simp only [WhatIf.run_days, he]
    · have hle : s.order_mgr.pending_orders.length
          ≤ s2.order_mgr.pending_orders.length := by
        rcases hdich with ⟨hp, _⟩ | ⟨hp, hl, _⟩
        · rw [hp]
        · rw [hp]; simp [hl]
      have hlen2 : s2.order_mgr.pending_orders.length ≤ 1 := by
        rcases hdich with ⟨hp, _⟩ | ⟨_, hl, _⟩
        · rw [hp]; exact hlen
        · rw [hl]
      have htot2 : s2.cost_calc.total_ordering
          = s2.cost_calc.order_cost * (s2.order_mgr.pending_orders.length : ℚ) := by
        rcases hdich with ⟨hp, ht⟩ | ⟨hp, hl, ht⟩
        · rw [ht, hp, htot, hoc]
        · rw [ht, htot, hp, hl, hoc]
          simp
      have hmono2 : ∀ x ∈ acc ++ [r],
          x.pending_orders ≤ s2.order_mgr.pending_orders.length := by
        intro x hx
        rcases List.mem_append.mp hx with hx | hx
        · exact le_trans (hmono x hx) hle
        · rw [List.mem_singleton.mp hx, hrec]
      have hone2 : ∀ x ∈ acc ++ [r], x.pending_orders ≤ 1 := by
        intro x hx
        rcases List.mem_append.mp hx with hx | hx
        · exact hone x hx
        · rw [List.mem_singleton.mp hx, hrec]; exact hlen2
      have hchain2 : List.Chain' (· ≤ ·)
          ((acc ++ [r]).map (fun x => x.pending_orders)) := by
        rw [List.map_append]
        rw [List.chain'_append]
        refine ⟨hchain, List.chain'_singleton _, ?_⟩
        intro x hx y hy
        have hy2 : r.pending_orders = y := by
          simpa using hy
        obtain ⟨hne, hxl⟩ := List.mem_getLast?_eq_getLast hx
        have hxmem : x ∈ acc.map (fun x => x.pending_orders) := by
          rw [hxl]; exact List.getLast_mem hne
        obtain ⟨x0, hx0, hx0e⟩ := List.mem_map.mp hxmem
        rw [← hy2, hrec, ← hx0e]
        exact le_trans (hmono x0 hx0) hle
      have := ih s2 k2 (acc ++ [r]) hlen2 htot2 hchain2 hmono2 hone2
      rcases this with ⟨e, he⟩ | ⟨s3, k3, recs, hrun, h1, h2, h3, h4, h5⟩
      · refine Or.inl ⟨e, ?_⟩
        simp only [WhatIf.run_days, hday, he]
      · refine Or.inr ⟨s3, k3, recs, ?_, h1, ?_, h3, h4, h5⟩
        · simp only [WhatIf.run_days, hday, hrun]
        · rw [h2, hoc]

theorem check_reorder_point_ext (rop eoq : ℤ) (draws1 draws2 : ℕ → ℚ)
    (s : WhatIf.SimState) (k1 k2 : ℕ) (d : ℤ)
    (h0 : draws1 k1 = draws2 k2) :
    ∃ sc c, WhatIf.check_reorder_point rop eoq draws1 s k1 d = (sc, k1 + c)
      ∧ WhatIf.check_reorder_point rop eoq draws2 s k2 d = (sc, k2 + c) := by
  unfold WhatIf.check_reorder_point
  rw [h0]
  by_cases hcond : s.current_stock ≤ rop ∧ s.order_mgr.get_pending_orders = []
  · rw [if_pos hcond, if_pos hcond]
    cases hpl : s.order_mgr.place_order (draws2 k2) d eoq with
    | none => refine ⟨s, 1, ?_, ?_⟩ <;> simp [hpl]
    | some om =>
      refine ⟨{ s with order_mgr := om, cost_calc := s.cost_calc.add_order_cost }, 1, ?_, ?_⟩ <;>
        simp [hpl]
  · rw [if_neg hcond, if_neg hcond]
    exact ⟨s, 0, by simp, by simp⟩

theorem simulate_day_ext (rop eoq : ℤ) (fc : List (ℤ × ℤ))
    (mods : ℤ → Option ℤ) (draws1 draws2 : ℕ → ℚ) (s : WhatIf.SimState)
    (k1 k2 : ℕ) (d : ℤ) (h0 : draws1 k1 = draws2 k2) :
    (∃ e, WhatIf.simulate_day rop eoq fc mods draws1 s k1 d = .error e
        ∧ WhatIf.simulate_day rop eoq fc mods draws2 s k2 d = .error e)
    ∨ ∃ s2 r c,
        WhatIf.simulate_day rop eoq fc mods draws1 s k1 d = .ok (s2, k1 + c, r)
        ∧ WhatIf.simulate_day rop eoq fc mods draws2 s k2 d = .ok (s2, k2 + c, r) := by
  cases hdem : WhatIf.get_daily_demand fc mods d with
  | error e =>
    exact Or.inl ⟨e, by simp only [WhatIf.simulate_day, hdem],
      by simp only [WhatIf.simulate_day, hdem]⟩
  | ok dem =>
    obtain ⟨sc, c, h1, h2⟩ := check_reorder_point_ext rop eoq draws1 draws2
      (WhatIf.SimState.mk
        (WhatIf.update_inventory
          (WhatIf.process_order_arrivals s d).current_stock dem).1
        (WhatIf.process_order_arrivals s d).order_mgr
        (WhatIf.process_order_arrivals s d).cost_calc)
      k1 k2 d h0
    refine Or.inr
      ⟨WhatIf.SimState.mk sc.current_stock sc.order_mgr
          (sc.cost_calc.update_costs sc.current_stock
            (WhatIf.update_inventory
              (WhatIf.process_order_arrivals s d).current_stock dem).2),
       WhatIf.DailyResult.mk d dem
          (WhatIf.update_inventory
            (WhatIf.process_order_arrivals s d).current_stock dem).2
          sc.current_stock
          sc.order_mgr.get_pending_orders.length,
       c, ?_, ?_⟩
    · simp only [WhatIf.simulate_day, hdem, h1]
    · simp only [WhatIf.simulate_day, hdem, h2]

theorem run_days_ext (rop eoq : ℤ) (fc : List (ℤ × ℤ))
    (mods : ℤ → Option ℤ) (draws1 draws2 : ℕ → ℚ) (days : List ℤ) :
    ∀ (s : WhatIf.SimState) (k1 k2 : ℕ) (acc : List WhatIf.DailyResult),
      (∀ i, draws1 (k1 + i) = draws2 (k2 + i)) →
      (∃ e, WhatIf.run_days rop eoq fc mods draws1 days s k1 acc = .error e
          ∧ WhatIf.run_days rop eoq fc mods draws2 days s k2 acc = .error e)
      ∨ ∃ s2 recs c,
          WhatIf.run_days rop eoq fc mods draws1 days s k1 acc
            = .ok (s2, k1 + c, recs)
          ∧ WhatIf.run_days rop eoq fc mods draws2 days s k2 acc
            = .ok (s2, k2 + c, recs) := by
  induction days with
  | nil =>
    intro s k1 k2 acc h
    exact Or.inr ⟨s, acc, 0, by simp [WhatIf.run_days], by simp [WhatIf.run_days]⟩
  | cons d ds ih =>
    intro s k1 k2 acc h
    have h0 : draws1 k1 = draws2 k2 := by simpa using h 0
    rcases simulate_day_ext rop eoq fc mods draws1 draws2 s k1 k2 d h0 with
      ⟨e, he1, he2⟩ | ⟨s2, r, c, hd1, hd2⟩
    · exact Or.inl ⟨e, by simp only [WhatIf.run_days, he1],
        by simp only [WhatIf.run_days, he2]⟩
    · have hshift : ∀ i, draws1 (k1 + c + i) = draws2 (k2 + c + i) := by
        intro i
        have hci := h (c + i)
        simpa [Nat.add_assoc] using hci
      rcases ih s2 (k1 + c) (k2 + c) (acc ++ [r]) hshift with
        ⟨e, he1, he2⟩ | ⟨s3, recs, c2, hr1, hr2⟩
      · exact Or.inl ⟨e, by simp only [WhatIf.run_days, hd1, he1],
          by simp only [WhatIf.run_days, hd2, he2]⟩
      · refine Or.inr ⟨s3, recs, c + c2, ?_, ?_⟩
        · simp only [WhatIf.run_days, hd1, hr1, Nat.add_assoc]
        · simp only [WhatIf.run_days, hd2, hr2, Nat.add_assoc]

theorem run_cases (sim : WhatIf.InventorySimulator) (a b : ℤ)
    (mods : ℤ → Option ℤ) (hr : Option ℚ) (draws : ℕ → ℚ) (k : ℕ) :
    (∃ e, sim.run a b mods hr draws k = .error e)
    ∨ ∃ stock0 cc,
        sim.run a b mods hr draws k
          = WhatIf.run_days sim.rop sim.eoq sim.forecast mods draws
              (WhatIf.timeline a b)
              (WhatIf.SimState.mk stock0 sim.order_mgr cc) k []
        ∧ cc.order_cost = sim.cost_calc.order_cost
        ∧ cc.total_ordering = sim.cost_calc.total_ordering := by
  unfold WhatIf.InventorySimulator.run
  cases hr with
  | none =>
    cases hv : WhatIf.validate_date_range sim.forecast a b with
    | error e => exact Or.inl ⟨e, by simp [hv]⟩
    | ok u =>
      cases hi : WhatIf.init_stock_state sim.ledger a with
      | error e => exact Or.inl ⟨e, by simp [hv, hi]⟩
      | ok stock0 =>
        exact Or.inr ⟨stock0, sim.cost_calc, by simp [hv, hi], rfl, rfl⟩
  | some r =>
    cases hv : WhatIf.validate_date_range sim.forecast a b with
    | error e => exact Or.inl ⟨e, by simp [hv]⟩
    | ok u =>
      cases hi : WhatIf.init_stock_state sim.ledger a with
      | error e => exact Or.inl ⟨e, by simp [hv, hi]⟩
      | ok stock0 =>
        exact Or.inr ⟨stock0,
          { sim.cost_calc with holding_rate := sim.unit_cost * r / 365 },
          by simp [hv, hi], rfl, rfl⟩

theorem init_pending_nil (p : WhatIf.Policy) (sup : WhatIf.Supplier)
    (hr : Option ℚ) (fc lg : List (ℤ × ℤ)) :
    (WhatIf.InventorySimulator.init p sup hr fc lg).order_mgr.pending_orders
      = [] := rfl

theorem init_total_ordering (p : WhatIf.Policy) (sup : WhatIf.Supplier)
    (hr : Option ℚ) (fc lg : List (ℤ × ℤ)) :
    (WhatIf.InventorySimulator.init p sup hr fc lg).cost_calc.total_ordering
      = 0 := rfl

theorem init_order_cost (p : WhatIf.Policy) (sup : WhatIf.Supplier)
    (hr : Option ℚ) (fc lg : List (ℤ × ℤ)) :
    (WhatIf.InventorySimulator.init p sup hr fc lg).cost_calc.order_cost
      = 1 / 10 * sup.MOQ * sup.cost := rfl

/-!
Claim theorems.
-/

/-- Claim C1: the claim says the arrival-collection operation adds an
arriving order's quantity to stock exactly once and removes the
PendingOrder from the pending set. In the core engine the removal never
happens: `_process_order_arrivals` changes only the stock and leaves the
order manager untouched, and in a concrete three-day run the order placed
on day 0 arrives on day 1 (its 50 units are credited exactly once, 52 =
7 + 50 − 5) yet every later daily record still reports one pending
order. -/
theorem C1_arrival_keeps_pending_order :
    (∀ (s : WhatIf.SimState) (d : ℤ),
      (WhatIf.process_order_arrivals s d).order_mgr = s.order_mgr
      ∧ (WhatIf.process_order_arrivals s d).current_stock
          = s.current_stock
            + ((s.order_mgr.get_pending_orders.filter
                (fun o => o.arrival_date = d)).map (fun o => o.quantity)).sum)
    ∧ ((fixSim3.run 0 2 (fun _ => none) none (fun _ => 0) 0).toOption.map
        (fun r => r.2.2.map (fun x => (x.inventory, x.pending_orders)))
        = some [(7, 1), (52, 1), (47, 1)]) := by
  refine ⟨fun s d => ⟨rfl, rfl⟩, ?_⟩
  decide

/-- Claim C3: for every consumption step on available stock `s ≥ 0` and
demand `d ≥ 0`, the sold quantity is `min s d`, the stockout is
`max (d − s) 0`, the resulting stock is `max (s − d) 0`, and stock stays
non-negative under any sequence of receive/consume operations; this holds
in the core `_update_inventory` and in the dashboard loop's
sold/unmet/closing fields. -/
theorem C3_consumption_formulas (s d : ℤ) (hs : 0 ≤ s) (hd : 0 ≤ d)
    (policy : Dashboard.Policy) (supplier : Dashboard.Supplier)
    (forecast : ℤ → Option ℤ) (st : Dashboard.DashState) (date : ℤ)
    (ops : List StockOp) (hops : ∀ q, StockOp.receive q ∈ ops → 0 ≤ q) :
    WhatIf.update_inventory s d = (max (s - d) 0, max (d - s) 0)
    ∧ s - (WhatIf.update_inventory s d).1 = min s d
    ∧ 0 ≤ (WhatIf.update_inventory s d).1
    ∧ ((Dashboard.sim_day policy supplier forecast st date).2).sold
        = min ((Dashboard.sim_day policy supplier forecast st date).2).opening_stock
            ((Dashboard.sim_day policy supplier forecast st date).2).demand
    ∧ ((Dashboard.sim_day policy supplier forecast st date).2).unmet_demand
        = max (((Dashboard.sim_day policy supplier forecast st date).2).demand
            - ((Dashboard.sim_day policy supplier forecast st date).2).opening_stock) 0
    ∧ ((Dashboard.sim_day policy supplier forecast st date).2).closing_stock
        = max (((Dashboard.sim_day policy supplier forecast st date).2).opening_stock
            - ((Dashboard.sim_day policy supplier forecast st date).2).demand) 0
    ∧ 0 ≤ ((Dashboard.sim_day policy supplier forecast st date).2).closing_stock
    ∧ 0 ≤ applyOps s ops := by
  refine ⟨?_, ?_, ?_, ?_, ?_, ?_, ?_, applyOps_nonneg ops s hs hops⟩
  · simp [WhatIf.update_inventory, neg_sub]
  · simp only [WhatIf.update_inventory]
    omega
  · simp only [WhatIf.update_inventory]
    exact le_max_right _ _
  · simp only [Dashboard.sim_day]
  · simp only [Dashboard.sim_day]
    omega
  · simp only [Dashboard.sim_day]
    omega
  · simp only [Dashboard.sim_day]
    omega

/-- Witness for C3 at stock 10 and demand 4. -/
theorem C3_witness :
    (0 : ℤ) ≤ 10
    ∧ WhatIf.update_inventory 10 4 = (max (10 - 4) 0, max (4 - 10) 0) := by
  refine ⟨by decide, (C3_consumption_formulas 10 4 (by decide) (by decide)
    fixDashPolicy fixDashSupplier (fun _ => some 5) ⟨15, []⟩ 100
    [StockOp.consume 5] (by simp)).1⟩

/-- Claim C4 counterexample: with lead time 1, MOQ 3, reliability one
half and an order placed on day 4 (a Friday), the core OrderManager
stores arrival day 7 (the following Monday, a business-day offset with no
reliability adjustment), whereas the claim's formula
`date + floor(lead_time * (1 + (1 − reliability)))` yields day 5. -/
theorem C4_counterexample :
    ((fixOrderManager.place_order 0 4 10).map
      (fun om2 => om2.pending_orders.map (fun o => o.arrival_date)))
      = some [7]
    ∧ (mkRat 1 2 : ℚ) = 1 / 2
    ∧ (4 : ℤ) + specAdjustedLeadTime 1 (mkRat 1 2) = 5
    ∧ (7 : ℤ) ≠ 5 := by
  have h2 : (mkRat 1 2 : ℚ) = 1 / 2 := by
    rw [Rat.mkRat_eq_divInt, Rat.divInt_eq_div]
    norm_num
  refine ⟨by decide, h2, ?_, by decide⟩
  have h3 : Int.floor (((1 : ℕ) : ℚ) * (1 + (1 - mkRat 1 2))) = 1 := by
    rw [Int.floor_eq_iff]
    rw [h2]
    norm_num
  unfold specAdjustedLeadTime
  rw [h3]
  decide

/-- Claim C4 (amended): on every successful `place_order` the core
OrderManager stores quantity `max(requested_qty, MOQ)` and arrival date
`order_date` plus `lead_time` BUSINESS days with no reliability
adjustment; the dashboard simulator instead uses the claim's formula: its
adjusted lead time is `floor(lead_time * (1 + (1 − reliability/100)))`
(reliability on the 0-100 scale) and its orders arrive that many calendar
days after placement with quantity `max(eoq, MOQ)`. -/
theorem C4_amended_lead_time
    (om : WhatIf.OrderManager) (draw : ℚ) (d qty : ℤ)
    (hdraw : draw ≤ om.reliability)
    (sup : Dashboard.Supplier) (h100 : sup.reliability ≤ 100)
    (hlt : 0 ≤ sup.lead_time)
    (policy : Dashboard.Policy) (forecast : ℤ → Option ℤ)
    (st : Dashboard.DashState) (date : ℤ)
    (hord : ((Dashboard.sim_day policy sup forecast st date).2).closing_stock
        < policy.reorder_point)
    (hpend : Dashboard.keepPending st.pending_orders date = []) :
    om.place_order draw d qty
      = some { om with pending_orders := om.pending_orders ++
          [{ arrival_date := WhatIf.businessDayAdd d om.lead_time,
             quantity := max qty om.moq, status := "pending" }] }
    ∧ Dashboard.adjusted_lead_time sup
        = Int.floor ((sup.lead_time : ℚ) * (1 + (1 - sup.reliability / 100)))
    ∧ ((Dashboard.sim_day policy sup forecast st date).1).pending_orders
        = [(date + Dashboard.adjusted_lead_time sup, max policy.eoq sup.MOQ)] := by
  refine ⟨?_, ?_, ?_⟩
  · unfold WhatIf.OrderManager.place_order
    rw [if_neg (not_lt.mpr hdraw)]
    rfl
  · have hx : (0 : ℚ) ≤ (sup.lead_time : ℚ) * (1 + (100 - sup.reliability) / 100) := by
      have h1 : (0 : ℚ) ≤ (sup.lead_time : ℚ) := by exact_mod_cast hlt
      have h2 : (0 : ℚ) ≤ (100 - sup.reliability) / 100 := by
        apply div_nonneg _ (by norm_num)
        linarith
      nlinarith
    have harg : (sup.lead_time : ℚ) * (1 + (100 - sup.reliability) / 100)
        = (sup.lead_time : ℚ) * (1 + (1 - sup.reliability / 100)) := by
      ring
    unfold Dashboard.adjusted_lead_time Dashboard.pythonInt
    rw [if_pos hx, harg]
  · simp only [Dashboard.sim_day] at hord ⊢
    rw [if_pos ⟨hord, hpend⟩, hpend]
    simp

/-- Witness for C4 (amended): the half-reliable order manager succeeds on
draw 0, and the dashboard day at stock 7 with demand 5 places an order. -/
theorem C4_amended_witness :
    (0 : ℚ) ≤ fixOrderManager.reliability
    ∧ Dashboard.adjusted_lead_time fixDashSupplier
        = Int.floor ((fixDashSupplier.lead_time : ℚ)
            * (1 + (1 - fixDashSupplier.reliability / 100)))
    ∧ ((Dashboard.sim_day fixDashPolicy fixDashSupplier (fun _ => some 5)
          ⟨7, []⟩ 100).1).pending_orders
        = [(100 + Dashboard.adjusted_lead_time fixDashSupplier,
            max fixDashPolicy.eoq fixDashSupplier.MOQ)] := by
  have h := C4_amended_lead_time fixOrderManager 0 4 10 (by decide)
    fixDashSupplier (by decide) (by decide) fixDashPolicy (fun _ => some 5)
    ⟨7, []⟩ 100 (by decide) (by decide)
  exact ⟨by decide, h.2.1, h.2.2⟩

/-- Claim C5 counterexample: in the dashboard simulator a day ending with
closing stock exactly equal to the reorder point (10), with safety stock
5 in the policy and no pending order, places no order and consumes no
reorder attempt, although the claimed trigger
`stock ≤ reorder_point + safety_stock` holds (10 ≤ 15). -/
theorem C5_counterexample :
    ((Dashboard.sim_day fixDashPolicy fixDashSupplier (fun _ => some 5)
        ⟨15, []⟩ 100).2).closing_stock = 10
    ∧ specReorderTrigger 10 fixDashPolicy.reorder_point
        fixDashPolicy.safety_stock true = true
    ∧ ((Dashboard.sim_day fixDashPolicy fixDashSupplier (fun _ => some 5)
        ⟨15, []⟩ 100).1).pending_orders = []
    ∧ ((Dashboard.sim_day fixDashPolicy fixDashSupplier (fun _ => some 5)
        ⟨15, []⟩ 100).2).restock_qty = 0
    ∧ ((Dashboard.sim_day fixDashPolicy fixDashSupplierBigMOQ (fun _ => some 5)
        ⟨7, []⟩ 100).2).restock_qty = 8
    ∧ fixDashPolicy.eoq = 5 := by
  decide

/-- Claim C5 (amended): in the core engine an order for quantity `eoq` is
attempted exactly when stock ≤ `rop` (which `__init__` sets to
`reorder_point + safety_stock`, so equality triggers) and no order is
pending, the stored quantity being `max(eoq, MOQ)`; in the dashboard
simulator the attempt instead happens exactly when
`closing_stock < reorder_point` (strict, safety stock not part of the
threshold) with no pending order, for quantity `max(eoq, MOQ)`. -/
theorem C5_amended_reorder_trigger
    (rop eoq : ℤ) (draws : ℕ → ℚ) (s : WhatIf.SimState) (k : ℕ) (d : ℤ)
    (p : WhatIf.Policy) (sup : WhatIf.Supplier) (hr : Option ℚ)
    (fc lg : List (ℤ × ℤ))
    (policy : Dashboard.Policy) (dsup : Dashboard.Supplier)
    (forecast : ℤ → Option ℤ) (st : Dashboard.DashState) (date : ℤ) :
    (¬ (s.current_stock ≤ rop ∧ s.order_mgr.get_pending_orders = []) →
      WhatIf.check_reorder_point rop eoq draws s k d = (s, k))
    ∧ (s.current_stock ≤ rop → s.order_mgr.get_pending_orders = [] →
        (WhatIf.check_reorder_point rop eoq draws s k d).2 = k + 1
        ∧ (draws k ≤ s.order_mgr.reliability →
            (WhatIf.check_reorder_point rop eoq draws s k d).1.order_mgr.pending_orders
              = [{ arrival_date := WhatIf.businessDayAdd d s.order_mgr.lead_time,
                   quantity := max eoq s.order_mgr.moq,
                   status := "pending" }]))
    ∧ (WhatIf.InventorySimulator.init p sup hr fc lg).rop
        = p.reorder_point + p.safety_stock
    ∧ ((Dashboard.sim_day policy dsup forecast st date).2).restock_qty
        = (if ((Dashboard.sim_day policy dsup forecast st date).2).closing_stock
              < policy.reorder_point
              ∧ Dashboard.keepPending st.pending_orders date = []
           then max policy.eoq dsup.MOQ else 0) := by
  refine ⟨?_, ?_, rfl, ?_⟩
  · intro hncond
    unfold WhatIf.check_reorder_point
    rw [if_neg hncond]
  · intro hstock hpend
    unfold WhatIf.check_reorder_point
    rw [if_pos ⟨hstock, hpend⟩]
    constructor
    · cases hpl : s.order_mgr.place_order (draws k) d eoq <;> simp [hpl]
    · intro hsucc
      unfold WhatIf.OrderManager.place_order
      rw [if_neg (not_lt.mpr hsucc)]
      have hnil : s.order_mgr.pending_orders = [] := hpend
      simp [hnil, WhatIf.OrderManager.calculate_arrival]
  · simp only [Dashboard.sim_day]
    split
    · rfl
    · rfl

/-- Witness for C5 (amended): at stock 5 with threshold 10 the core
engine consumes one draw and stores the order. -/
theorem C5_amended_witness :
    (WhatIf.check_reorder_point 10 5 (fun _ => 0) fixState 0 3).2 = 0 + 1
    ∧ (WhatIf.check_reorder_point 10 5 (fun _ => 0) fixState 0 3).1.order_mgr.pending_orders
        = [{ arrival_date := WhatIf.businessDayAdd 3 fixState.order_mgr.lead_time,
             quantity := max 5 fixState.order_mgr.moq,
             status := "pending" }] := by
  have h := (C5_amended_reorder_trigger 10 5 (fun _ => 0) fixState 0 3
    fixPolicy fixSupplierSure none [] [] fixDashPolicy fixDashSupplier
    (fun _ => some 5) ⟨15, []⟩ 100).2.1 (by decide) (by decide)
  exact ⟨h.1, h.2 (by decide)⟩

/-- Claim C6 counterexample: in the dashboard simulator a date with no
forecast entry (and the simulator has no override mechanism for demand)
silently yields demand 0 — the day completes normally with unchanged
stock and no error — so zero-fill does occur on this code path. -/
theorem C6_counterexample :
    ((Dashboard.sim_day fixDashPolicy fixDashSupplier (fun _ => none)
        ⟨15, []⟩ 3).2).demand = 0
    ∧ ((Dashboard.sim_day fixDashPolicy fixDashSupplier (fun _ => none)
        ⟨15, []⟩ 3).2).closing_stock = 15
    ∧ ((Dashboard.sim_day fixDashPolicy fixDashSupplier (fun _ => none)
        ⟨15, []⟩ 3).1).pending_orders = [] := by
  decide

/-- Claim C6 (amended): the core engine's demand lookup fails with an
error whenever neither a demand modification nor a forecast row exists
for the requested date (no zero-fill on that path); the dashboard
simulator instead substitutes demand 0 for any missing forecast date. -/
theorem C6_amended_missing_demand
    (fc : List (ℤ × ℤ)) (mods : ℤ → Option ℤ) (d : ℤ)
    (hm : mods d = none) (hf : WhatIf.forecastLookup fc d = none)
    (policy : Dashboard.Policy) (sup : Dashboard.Supplier)
    (dfc : ℤ → Option ℤ) (st : Dashboard.DashState) (date : ℤ)
    (hdf : dfc date = none) :
    WhatIf.get_daily_demand fc mods d = .error (.noForecast d)
    ∧ ((Dashboard.sim_day policy sup dfc st date).2).demand = 0 := by
  constructor
  · unfold WhatIf.get_daily_demand
    rw [hm, hf]
  · simp only [Dashboard.sim_day]
    rw [hdf]
    rfl

/-- Witness for C6 (amended) on an empty forecast at date 0. -/
theorem C6_amended_witness :
    WhatIf.get_daily_demand [] (fun _ => none) 0 = .error (.noForecast 0)
    ∧ ((Dashboard.sim_day fixDashPolicy fixDashSupplier (fun _ => none)
        ⟨15, []⟩ 0).2).demand = 0 :=
  C6_amended_missing_demand [] (fun _ => none) 0 rfl rfl fixDashPolicy
    fixDashSupplier (fun _ => none) ⟨15, []⟩ 0 rfl

/-- Claim C7 (code evidence): the cost accumulator updates are as
claimed — each daily update adds `closing_stock * holding_rate` and
`stockout_qty * stockout_penalty`, each placed order adds `order_cost` —
but the daily holding rate is NOT `unit_cost * annualized_rate / 365`
when no later override is applied: `CostCalculator.__init__` discards its
`holding_rate` argument and hardcodes the rate 0.20 per unit per day, as
the constructor result shows for every argument value, including the one
the simulator passes. -/
theorem C7_cost_accumulator (hr oc sp : ℚ) (c : WhatIf.CostCalculator)
    (cs sq : ℤ) (p : WhatIf.Policy) (sup : WhatIf.Supplier)
    (hr0 : Option ℚ) (fc lg : List (ℤ × ℤ)) :
    (WhatIf.CostCalculator.init hr oc sp).holding_rate = 1 / 5
    ∧ (c.update_costs cs sq).total_holding
        = c.total_holding + cs * c.holding_rate
    ∧ (c.update_costs cs sq).total_stockout
        = c.total_stockout + sq * c.stockout_penalty
    ∧ c.add_order_cost.total_ordering = c.total_ordering + c.order_cost
    ∧ (WhatIf.InventorySimulator.init p sup hr0 fc lg).cost_calc.holding_rate
        = 1 / 5 :=
  ⟨rfl, rfl, rfl, rfl, rfl⟩

/-- Claim C2: for every run over any date range and inputs, at most one
pending order is outstanding at every simulated day: every daily record
of every core-engine run started from `__init__` reports at most one
pending order, and the dashboard loop keeps its pending list at length at
most one through any sequence of days from any state with at most one
pending order. -/
theorem C2_at_most_one_pending_order :
    (∀ (p : WhatIf.Policy) (sup : WhatIf.Supplier) (hr0 hr : Option ℚ)
       (fc lg : List (ℤ × ℤ)) (a b : ℤ) (mods : ℤ → Option ℤ)
       (draws : ℕ → ℚ) (k : ℕ),
      corePendingAtMostOne
        ((WhatIf.InventorySimulator.init p sup hr0 fc lg).run a b mods hr draws k)
        = true)
    ∧ (∀ (policy : Dashboard.Policy) (supplier : Dashboard.Supplier)
        (forecast : ℤ → Option ℤ) (days : List ℤ) (st : Dashboard.DashState),
       st.pending_orders.length ≤ 1 →
       ((Dashboard.sim_days policy supplier forecast days st).2).pending_orders.length
         ≤ 1) := by
  constructor
  · intro p sup hr0 hr fc lg a b mods draws k
    rcases run_cases (WhatIf.InventorySimulator.init p sup hr0 fc lg)
        a b mods hr draws k with
      ⟨e, he⟩ | ⟨stock0, cc, hrun, hoc, hto⟩
    · rw [he]; rfl
    · rw [hrun]
      have htothyp : cc.total_ordering
          = cc.order_cost
            * (((WhatIf.InventorySimulator.init p sup hr0 fc lg).order_mgr.pending_orders.length : ℕ) : ℚ) := by
        rw [hto, init_total_ordering, init_pending_nil]
        simp
      have hmaster := run_days_master
        (WhatIf.InventorySimulator.init p sup hr0 fc lg).rop
        (WhatIf.InventorySimulator.init p sup hr0 fc lg).eoq
        (WhatIf.InventorySimulator.init p sup hr0 fc lg).forecast mods draws
        (WhatIf.timeline a b)
        (WhatIf.SimState.mk stock0
          (WhatIf.InventorySimulator.init p sup hr0 fc lg).order_mgr cc)
        k [] (by simp [init_pending_nil]) htothyp (by simp) (by simp) (by simp)
      rcases hmaster with ⟨e, he⟩ | ⟨s2, k2, recs, hrun2, hl, _, _, _, hone⟩
      · rw [he]; rfl
      · rw [hrun2]
        simp only [corePendingAtMostOne]
        rw [List.all_eq_true]
        intro r hrmem
        exact decide_eq_true (hone r hrmem)
  · intro policy supplier forecast days st h
    exact sim_days_pending_le_one policy supplier forecast days st h

/-- Witness for C2 on a concrete three-day core run and a concrete
two-day dashboard run. -/
theorem C2_witness :
    corePendingAtMostOne
      (fixSim3.run 0 2 (fun _ => none) none (fun _ => 0) 0) = true
    ∧ ((Dashboard.sim_days fixDashPolicy fixDashSupplier (fun _ => some 0)
        [100, 101] ⟨15, []⟩).2).pending_orders.length ≤ 1 :=
  ⟨C2_at_most_one_pending_order.1 fixPolicy fixSupplierSure none none
      [(0, 5), (1, 5), (2, 5)] [(0, 12)] 0 2 (fun _ => none) (fun _ => 0) 0,
   C2_at_most_one_pending_order.2 fixDashPolicy fixDashSupplier
      (fun _ => some 0) [100, 101] ⟨15, []⟩ (by decide)⟩

/-- Claim C8 counterexample: two successive executions of the same
one-day scenario in the same process read successive positions of the
shared ambient random stream: the first run's reliability trial fails
(draw 9/10 against reliability 1/2, cursor moves 0 to 1) and the second
run's trial succeeds (draw 1/10), so identical explicit inputs yield
different daily records. -/
theorem C8_counterexample :
    ((fixSim1.run 0 0 (fun _ => none) none fixDraws 0).toOption.map
        (fun r => (r.2.1, r.2.2)))
      = some ((1 : ℕ), [(WhatIf.DailyResult.mk 0 5 0 5 0)])
    ∧ ((fixSim1.run 0 0 (fun _ => none) none fixDraws 1).toOption.map
        (fun r => (r.2.1, r.2.2)))
      = some ((2 : ℕ), [(WhatIf.DailyResult.mk 0 5 0 5 1)])
    ∧ [WhatIf.DailyResult.mk 0 5 0 5 0] ≠ [WhatIf.DailyResult.mk 0 5 0 5 1] := by
  refine ⟨by decide, by decide, by decide⟩

/-- Claim C8 (amended): a core-engine run is a deterministic function of
its explicit inputs and of the ambient draw sub-stream it reads: two runs
reading equal draws (possibly from different cursor positions of the
shared global stream) either fail with the same error or produce the same
final state and the same daily records while advancing their cursors by
the same amount. The randomness is the ambient global stream, not an
injected seeded generator, so two successive executions in one process
resume at different cursors and can differ (see the counterexample). -/
theorem C8_amended_determinism (sim : WhatIf.InventorySimulator) (a b : ℤ)
    (mods : ℤ → Option ℤ) (hr : Option ℚ) (draws1 draws2 : ℕ → ℚ)
    (k1 k2 : ℕ) (h : ∀ i, draws1 (k1 + i) = draws2 (k2 + i)) :
    (∃ e, sim.run a b mods hr draws1 k1 = .error e
        ∧ sim.run a b mods hr draws2 k2 = .error e)
    ∨ ∃ s2 recs c, sim.run a b mods hr draws1 k1 = .ok (s2, k1 + c, recs)
        ∧ sim.run a b mods hr draws2 k2 = .ok (s2, k2 + c, recs) := by
  rcases run_days_ext sim.rop sim.eoq sim.forecast mods draws1 draws2
      (WhatIf.timeline a b) with hext
  unfold WhatIf.InventorySimulator.run
  cases hr with
  | none =>
    cases hv : WhatIf.validate_date_range sim.forecast a b with
    | error e => exact Or.inl ⟨e, by simp [hv], by simp [hv]⟩
    | ok u =>
      cases hi : WhatIf.init_stock_state sim.ledger a with
      | error e => exact Or.inl ⟨e, by simp [hv, hi], by simp [hv, hi]⟩
      | ok stock0 =>
        rcases hext (WhatIf.SimState.mk stock0 sim.order_mgr sim.cost_calc)
            k1 k2 [] h with ⟨e, he1, he2⟩ | ⟨s2, recs, c, h1, h2⟩
        · exact Or.inl ⟨e, by simp [hv, hi, he1], by simp [hv, hi, he2]⟩
        · exact Or.inr ⟨s2, recs, c, by simp [hv, hi, h1], by simp [hv, hi, h2]⟩
  | some r =>
    cases hv : WhatIf.validate_date_range sim.forecast a b with
    | error e => exact Or.inl ⟨e, by simp [hv], by simp [hv]⟩
    | ok u =>
      cases hi : WhatIf.init_stock_state sim.ledger a with
      | error e => exact Or.inl ⟨e, by simp [hv, hi], by simp [hv, hi]⟩
      | ok stock0 =>
        rcases hext (WhatIf.SimState.mk stock0 sim.order_mgr
            ({ sim.cost_calc with holding_rate := sim.unit_cost * r / 365 }))
            k1 k2 [] h with ⟨e, he1, he2⟩ | ⟨s2, recs, c, h1, h2⟩
        · exact Or.inl ⟨e, by simp [hv, hi, he1], by simp [hv, hi, he2]⟩
        · exact Or.inr ⟨s2, recs, c, by simp [hv, hi, h1], by simp [hv, hi, h2]⟩

/-- Witness for C8 (amended): two runs over the same stream and cursor. -/
theorem C8_amended_witness :
    (∃ e, fixSim1.run 0 0 (fun _ => none) none (fun _ => mkRat 1 10) 0
          = .error e
        ∧ fixSim1.run 0 0 (fun _ => none) none (fun _ => mkRat 1 10) 0
          = .error e)
    ∨ ∃ s2 recs c,
        fixSim1.run 0 0 (fun _ => none) none (fun _ => mkRat 1 10) 0
          = .ok (s2, 0 + c, recs)
        ∧ fixSim1.run 0 0 (fun _ => none) none (fun _ => mkRat 1 10) 0
          = .ok (s2, 0 + c, recs) :=
  C8_amended_determinism fixSim1 0 0 (fun _ => none) none
    (fun _ => mkRat 1 10) (fun _ => mkRat 1 10) 0 0 (fun i => rfl)

/-- Claim C9 counterexample: in the dashboard simulator a missing policy
row makes the core body fail with an IndexError, but `simulate_product`
catches every exception and hands the caller an empty ledger instead of
propagating the failure. -/
theorem C9_counterexample :
    Dashboard.simulate_core [] [] (fun _ => none) "P1" none 0
      = .error "IndexError: no policy row"
    ∧ Dashboard.simulate_product [] [] (fun _ => none) "P1" none 0 = [] :=
  ⟨rfl, rfl⟩

/-- Claim C9 (amended): in the core engine missing-data and date-range
errors propagate to the caller with no partial result — a successful run
returns exactly one record per day of the requested range, and a run
whose forecast is empty aborts with the validation error; the dashboard
simulator instead swallows every exception and returns an empty result
(see the counterexample). -/
theorem C9_amended_error_propagation (sim : WhatIf.InventorySimulator)
    (a b : ℤ) (mods : ℤ → Option ℤ) (hr : Option ℚ) (draws : ℕ → ℚ)
    (k : ℕ) (p : WhatIf.Policy) (sup : WhatIf.Supplier) (hr0 hr2 : Option ℚ)
    (lg : List (ℤ × ℤ)) (a2 b2 : ℤ) (mods2 : ℤ → Option ℤ)
    (draws2 : ℕ → ℚ) (k2 : ℕ) :
    (match sim.run a b mods hr draws k with
     | .ok (_, _, recs) => recs.length = (b - a + 1).toNat
     | .error _ => True)
    ∧ (WhatIf.InventorySimulator.init p sup hr0 [] lg).run a2 b2 mods2 hr2
        draws2 k2 = .error .invalidForecast := by
  constructor
  · rcases run_cases sim a b mods hr draws k with
      ⟨e, he⟩ | ⟨stock0, cc, hrun, _, _⟩
    · rw [he]; trivial
    · rw [hrun]
      rcases run_days_length sim.rop sim.eoq sim.forecast mods draws
          (WhatIf.timeline a b)
          (WhatIf.SimState.mk stock0 sim.order_mgr cc) k [] with
        ⟨e, he2⟩ | ⟨s2, k2x, recs, hok, hlen⟩
      · rw [he2]; trivial
      · rw [hok]
        simpa [timeline_length] using hlen
  · unfold WhatIf.InventorySimulator.run
    cases hr2 <;> rfl

/-- Claim C10: in the core engine an order, once placed, is never removed
from the pending list (arrivals only add stock), so the per-record
pending counts never decrease and stay at most one, the final total
ordering cost equals `order_cost` times the final number of pending
orders, and — the estimated order cost being non-negative — the total
ordering cost of an entire run never exceeds a single `order_cost`. -/
theorem C10_at_most_one_order_per_run
    (p : WhatIf.Policy) (sup : WhatIf.Supplier) (hr0 hr : Option ℚ)
    (fc lg : List (ℤ × ℤ)) (a b : ℤ) (mods : ℤ → Option ℤ)
    (draws : ℕ → ℚ) (k : ℕ)
    (hocnn : 0 ≤ (WhatIf.InventorySimulator.init p sup hr0 fc lg).cost_calc.order_cost) :
    (∀ (s : WhatIf.SimState) (d : ℤ),
      (WhatIf.process_order_arrivals s d).order_mgr.pending_orders
        = s.order_mgr.pending_orders)
    ∧ match (WhatIf.InventorySimulator.init p sup hr0 fc lg).run
          a b mods hr draws k with
      | .ok (s2, _, recs) =>
          s2.cost_calc.total_ordering
            = (WhatIf.InventorySimulator.init p sup hr0 fc lg).cost_calc.order_cost
                * (s2.order_mgr.pending_orders.length : ℚ)
          ∧ s2.order_mgr.pending_orders.length ≤ 1
          ∧ s2.cost_calc.total_ordering
              ≤ (WhatIf.InventorySimulator.init p sup hr0 fc lg).cost_calc.order_cost
          ∧ List.Chain' (· ≤ ·) (recs.map (fun r => r.pending_orders))
          ∧ ∀ r ∈ recs, r.pending_orders ≤ 1
      | .error _ => True := by
  refine ⟨fun s d => rfl, ?_⟩
  rcases run_cases (WhatIf.InventorySimulator.init p sup hr0 fc lg)
      a b mods hr draws k with
    ⟨e, he⟩ | ⟨stock0, cc, hrun, hoc, hto⟩
  · rw [he]; trivial
  · rw [hrun]
    have htothyp : cc.total_ordering
        = cc.order_cost
          * (((WhatIf.InventorySimulator.init p sup hr0 fc lg).order_mgr.pending_orders.length : ℕ) : ℚ) := by
      rw [hto, init_total_ordering, init_pending_nil]
      simp
    have hmaster := run_days_master
      (WhatIf.InventorySimulator.init p sup hr0 fc lg).rop
      (WhatIf.InventorySimulator.init p sup hr0 fc lg).eoq
      (WhatIf.InventorySimulator.init p sup hr0 fc lg).forecast mods draws
      (WhatIf.timeline a b)
      (WhatIf.SimState.mk stock0
        (WhatIf.InventorySimulator.init p sup hr0 fc lg).order_mgr cc)
      k [] (by simp [init_pending_nil]) htothyp (by simp) (by simp) (by simp)
    rcases hmaster with ⟨e, he⟩ | ⟨s2, k2, recs, hrun2, hl, hocs, htots, hchain, hone⟩
    · rw [he]; trivial
    · rw [hrun2]
      have hocs2 : s2.cost_calc.order_cost
          = (WhatIf.InventorySimulator.init p sup hr0 fc lg).cost_calc.order_cost := by
        rw [hocs]; exact hoc
      have htot2 : s2.cost_calc.total_ordering
          = (WhatIf.InventorySimulator.init p sup hr0 fc lg).cost_calc.order_cost
              * (s2.order_mgr.pending_orders.length : ℚ) := by
        rw [htots, hocs2]
      refine ⟨htot2, hl, ?_, hchain, hone⟩
      rw [htot2]
      have hcast : ((s2.order_mgr.pending_orders.length : ℚ)) ≤ 1 := by
        exact_mod_cast hl
      calc (WhatIf.InventorySimulator.init p sup hr0 fc lg).cost_calc.order_cost
            * (s2.order_mgr.pending_orders.length : ℚ)
          ≤ (WhatIf.InventorySimulator.init p sup hr0 fc lg).cost_calc.order_cost * 1 :=
            mul_le_mul_of_nonneg_left hcast hocnn
        _ = (WhatIf.InventorySimulator.init p sup hr0 fc lg).cost_calc.order_cost :=
            mul_one _

/-- Witness for C10 on the concrete three-day run whose single order
arrives on day 1 and stays pending. -/
theorem C10_witness :
    (0 : ℚ) ≤ fixSim3.cost_calc.order_cost
    ∧ ((WhatIf.process_order_arrivals fixState 0).order_mgr.pending_orders
        = fixState.order_mgr.pending_orders) := by
  refine ⟨by norm_num [fixSim3, WhatIf.InventorySimulator.init,
    WhatIf.CostCalculator.init, fixSupplierSure, fixPolicy], ?_⟩
  exact (C10_at_most_one_order_per_run fixPolicy fixSupplierSure none none
    [(0, 5), (1, 5), (2, 5)] [(0, 12)] 0 2 (fun _ => none) (fun _ => 0) 0
    (by norm_num [WhatIf.InventorySimulator.init, WhatIf.CostCalculator.init,
      fixSupplierSure])).1 fixState 0
